import Mathlib

/-
Verification development for the rag-parser-service repository.

Shallow embedding of the core pipeline:
  - src/app/services/storage.py   (StorageService.download_file / cleanup_file)
  - src/app/services/document.py  (DocumentService.process_document and helpers)
  - src/app/services/worker_pool.py (WorkerPool._process_messages /
    _process_document_with_retry / _shutdown)
  - src/app/kafka/schemas.py      (DocumentUploadedEvent.get_format)
  - src/app/kafka/producer.py     (KafkaProducerClient.publish_parsed_event)
  - src/app/config.py             (Settings defaults)

Side effects (downloads, sleeps, Kafka publishes, offset commits, temp-file
cleanup, in-flight table updates) are recorded as an explicit effect trace.
Fallible external calls (MinIO stat/fget, parser.parse, the SQLAlchemy save)
are supplied by an environment record, classified the way the Python code
dispatches on them: ValueError versus any other exception.
-/

set_option maxHeartbeats 1000000

namespace RagParser

/-- Result of a Python call, classified exactly the way the source code
dispatches on exceptions: success, `ValueError`, or any other exception. -/
inductive PyResult (α : Type) where
  | ok (a : α)
  | valueError (msg : String)
  | otherError (msg : String)
  deriving Repr, DecidableEq

/-- Observable side effects of one run, in program order. -/
inductive Effect where
  | tempCreated (path : String)
  | cleanup (path : String)
  | skipHit (documentId : String)
  | saveStructure (structureId : Nat)
  | setStatus (documentId : String) (status : String) (errorMessage : Option String)
  | sleep (seconds : Nat)
  | publishParsed (documentId : String) (structureId : Nat) (parseDurationMs : Nat)
  | publishError (documentId : String) (errorType : String) (errorMessage : String)
  | commit
  | skipDecided
  | inFlightInsert (documentId : String)
  | inFlightRemove (documentId : String)
  deriving Repr, DecidableEq

/-- A persisted DocumentStructure row (src/app/models): the fields the claims
depend on; ids are modelled as naturals standing for the generated UUIDs. -/
structure SRow where
  id : Nat
  documentId : String
  checksum : Option String
  parseDurationMs : Nat
  deriving Repr, DecidableEq

/-- A persisted Document row: identity, status and error_message. -/
structure DRow where
  id : String
  status : String
  errorMessage : Option String
  deriving Repr, DecidableEq

/-- The relational store: document_structures and documents tables, in
insertion order (a query with no ORDER BY is read off in this order). -/
structure DB where
  structures : List SRow
  documents : List DRow
  deriving Repr, DecidableEq

/-- Python truthiness of the optional checksum string
(`if checksum:` in DocumentService._check_existing_structure). -/
def pyTruthy : Option String → Bool
  | none => false
  | some s => !(s == "")

/-- Row filter built by `_check_existing_structure`: filter_by(document_id),
and additionally filter_by(checksum) only when the checksum is truthy. -/
def structMatches (documentId : String) (checksum : Option String) (r : SRow) : Bool :=
  r.documentId == documentId &&
    (if pyTruthy checksum then r.checksum == checksum else true)

/-- DocumentService._check_existing_structure: `query.first() is not None`. -/
def _check_existing_structure (db : DB) (documentId : String)
    (checksum : Option String) : Bool :=
  ((db.structures.filter (structMatches documentId checksum)).head?).isSome

/-- DocumentService._update_document_status: update the first row with this
id, or append a fresh row when none exists.  (The SQLAlchemyError swallow is
not modelled: the store is assumed reachable.) -/
def _update_document_status : List DRow → String → String → Option String → List DRow
  | [], documentId, status, errorMessage => [⟨documentId, status, errorMessage⟩]
  | r :: rest, documentId, status, errorMessage =>
    if r.id == documentId then ⟨r.id, status, errorMessage⟩ :: rest
    else r :: _update_document_status rest documentId status errorMessage

/-- Read back a document's (status, error_message), first row by id. -/
def statusOf (db : DB) (documentId : String) : Option (String × Option String) :=
  (db.documents.find? fun r => r.id == documentId).map fun r => (r.status, r.errorMessage)

/-- Environment for one process_document attempt: outcomes of the external
calls plus the fresh values (temp path, structure UUID, measured duration)
this attempt would produce. -/
structure DocEnv where
  statSize : PyResult Nat
  tempPath : String
  fgetErr : Option String
  parseResult : PyResult Unit
  saveErr : Option String
  freshStructureId : Nat
  freshDurationMs : Nat
  deriving Repr, DecidableEq

/-- Message of the ValueError StorageService.download_file raises when the
object exceeds the configured maximum size. -/
def oversizedMsg (fileSize maxSize : Nat) : String :=
  "File size " ++ toString fileSize ++ " exceeds maximum allowed size " ++ toString maxSize

/-- StorageService.download_file: stat_object, size check (ValueError when
oversized), mkstemp (creates the temp file), fget_object.  Note the temp file
is created before fget_object runs; when fget_object fails the function
raises with the file already on disk. -/
def download_file (maxSize : Nat) (env : DocEnv) : PyResult String × List Effect :=
  match env.statSize with
  | .ok fileSize =>
    if maxSize < fileSize then (.valueError (oversizedMsg fileSize maxSize), [])
    else
      match env.fgetErr with
      | none => (.ok env.tempPath, [.tempCreated env.tempPath])
      | some m => (.otherError m, [.tempCreated env.tempPath])
  | .valueError m => (.valueError m, [])
  | .otherError m => (.otherError m, [])

/-- ASCII lowercasing of one character, as Python str.lower acts on the
ASCII format and extension strings this code compares. -/
def charLower (c : Char) : Char :=
  if 65 ≤ c.toNat && c.toNat ≤ 90 then Char.ofNat (c.toNat + 32) else c

/-- Python str.lower on the (ASCII) strings involved here. -/
def strLower (s : String) : String := String.mk (s.data.map charLower)

/-- ParserFactory._parsers keys (src/app/parsers/factory.py). -/
def supportedFormats : List String := ["docx", "pdf", "pptx", "xlsx"]

/-- Message of the ValueError ParserFactory.get_parser raises. -/
def unsupportedFormatMsg (format : String) : String :=
  "Unsupported document format: " ++ format

/-- Outcome dictionary returned by DocumentService.process_document. -/
structure ProcOutcome where
  structureId : Nat
  parseDurationMs : Nat
  skipped : Bool
  deriving Repr, DecidableEq

/-- DocumentService.process_document, transcribed from src/app/services/document.py:
idempotency check (on a hit, the structure is re-fetched filtered only by
document_id and returned with skipped = true); otherwise download, parser
selection, parse, save, status update; ValueError from any step sets status
parse_failed and re-raises; any other exception re-raises with no status
change; the finally block cleans the temp file only when the download call
returned (temp_file remains None when download itself raised). -/
def process_document (maxSize : Nat) (db : DB) (env : DocEnv)
    (documentId format : String) (checksum : Option String) :
    PyResult ProcOutcome × DB × List Effect :=
  if _check_existing_structure db documentId checksum then
    match (db.structures.filter fun r => r.documentId == documentId).head? with
    | some s => (.ok ⟨s.id, s.parseDurationMs, true⟩, db, [.skipHit documentId])
    | none => (.otherError "NoneType has no attribute id", db, [.skipHit documentId])
  else
    match download_file maxSize env with
    | (.valueError m, dlEffs) =>
      (.valueError m,
       { db with documents := _update_document_status db.documents documentId "parse_failed" (some m) },
       dlEffs ++ [.setStatus documentId "parse_failed" (some m)])
    | (.otherError m, dlEffs) => (.otherError m, db, dlEffs)
    | (.ok path, dlEffs) =>
      if supportedFormats.contains (strLower format) then
        match env.parseResult with
        | .valueError m =>
          (.valueError m,
           { db with documents := _update_document_status db.documents documentId "parse_failed" (some m) },
           dlEffs ++ [.setStatus documentId "parse_failed" (some m), .cleanup path])
        | .otherError m => (.otherError m, db, dlEffs ++ [.cleanup path])
        | .ok _ =>
          match env.saveErr with
          | some m => (.otherError m, db, dlEffs ++ [.cleanup path])
          | none =>
            let newRow : SRow := ⟨env.freshStructureId, documentId, checksum, env.freshDurationMs⟩
            (.ok ⟨env.freshStructureId, env.freshDurationMs, false⟩,
             { structures := db.structures ++ [newRow],
               documents := _update_document_status db.documents documentId "parsed" none },
             dlEffs ++ [.saveStructure env.freshStructureId,
                        .setStatus documentId "parsed" none, .cleanup path])
      else
        let m := unsupportedFormatMsg format
        (.valueError m,
         { db with documents := _update_document_status db.documents documentId "parse_failed" (some m) },
         dlEffs ++ [.setStatus documentId "parse_failed" (some m), .cleanup path])

/-- MIME lookup table of DocumentUploadedEvent.get_format. -/
def mime_to_format : List (String × String) :=
  [("application/vnd.openxmlformats-officedocument.wordprocessingml.document", "docx"),
   ("application/msword", "doc"),
   ("application/pdf", "pdf"),
   ("application/vnd.openxmlformats-officedocument.presentationml.presentation", "pptx"),
   ("application/vnd.ms-powerpoint", "ppt"),
   ("application/vnd.openxmlformats-officedocument.spreadsheetml.sheet", "xlsx"),
   ("application/vnd.ms-excel", "xls")]

/-- Extension whitelist of DocumentUploadedEvent.get_format. -/
def knownExtensions : List String := ["docx", "doc", "pdf", "pptx", "ppt", "xlsx", "xls"]

/-- Characters after the last dot of the filename, none when it has no dot:
this is rsplit(".", 1)[-1] guarded by the `"." in original_name` test. -/
def afterLastDot : List Char → Option (List Char)
  | [] => none
  | c :: rest =>
    match afterLastDot rest with
    | some t => some t
    | none => if c == '.' then some rest else none

/-- DocumentUploadedEvent.get_format: exact MIME lookup, then the lowercased
extension after the last dot when the filename has a dot and the extension is
recognized, else the fixed default pdf. -/
def get_format (mimeType originalName : String) : String :=
  match mime_to_format.find? (fun p => p.1 == mimeType) with
  | some p => p.2
  | none =>
    match afterLastDot originalName.data with
    | some extChars =>
      let ext := strLower (String.mk extChars)
      if knownExtensions.contains ext then ext else "pdf"
    | none => "pdf"

/-- Payload of a document.parsed event (KafkaProducerClient.publish_parsed_event). -/
structure DocumentParsedEvent where
  event_id : String
  document_id : String
  structure_id : String
  format : String
  parsed_at : String
  parse_duration_ms : Nat
  parser_version : String
  deriving Repr, DecidableEq

/-- KafkaProducerClient.publish_parsed_event: builds the outbound payload
with event_id set to the freshly drawn uuid4 (passed here as freshUuid). -/
def publish_parsed_event (freshUuid documentId structureId format parsedAt : String)
    (parseDurationMs : Nat) (parserVersion : String) : DocumentParsedEvent :=
  ⟨freshUuid, documentId, structureId, format, parsedAt, parseDurationMs, parserVersion⟩

/-- Backoff chosen before retry attempt rc+1:
retry_backoff_list[min(retry_count − 1, len − 1)] with retry_count = rc + 1. -/
def backoffAt (backoff : List Nat) (rc : Nat) : Nat :=
  backoff.getD (min rc (backoff.length - 1)) 0

/-- The while-loop of WorkerPool._process_document_with_retry, entered with
retry_count = rc.  attempt rc db is the outcome of the process_document call
on that iteration together with its database and effect footprint. -/
def retryFrom (maxRetries : Nat) (backoff : List Nat) (documentId : String)
    (attempt : Nat → DB → PyResult ProcOutcome × DB × List Effect)
    (rc : Nat) (db : DB) : DB × List Effect :=
  if rc ≤ maxRetries then
    match attempt rc db with
    | (.ok o, db1, effs) =>
      (db1, effs ++ [.publishParsed documentId o.structureId o.parseDurationMs, .commit])
    | (.valueError m, db1, effs) =>
      (db1, effs ++ [.publishError documentId "parsing_error" m, .commit])
    | (.otherError m, db1, effs) =>
      if h : rc + 1 ≤ maxRetries then
        let r := retryFrom maxRetries backoff documentId attempt (rc + 1) db1
        (r.1, effs ++ Effect.sleep (backoffAt backoff rc) :: r.2)
      else
        (db1, effs ++ [.publishError documentId "max_retries_exceeded" m, .commit])
  else (db, [])
termination_by maxRetries + 1 - rc
decreasing_by omega

/-- WorkerPool._process_document_with_retry: the retry loop started at
retry_count = 0, with the finally block removing the in-flight entry. -/
def _process_document_with_retry (maxRetries : Nat) (backoff : List Nat) (documentId : String)
    (attempt : Nat → DB → PyResult ProcOutcome × DB × List Effect)
    (db : DB) : DB × List Effect :=
  let r := retryFrom maxRetries backoff documentId attempt 0 db
  (r.1, r.2 ++ [.inFlightRemove documentId])

/-- The attempt function the worker actually submits: every iteration calls
DocumentService.process_document; envs rc supplies attempt rc's external
outcomes. -/
def pdAttempt (maxSize : Nat) (envs : Nat → DocEnv) (documentId format : String)
    (checksum : Option String) :
    Nat → DB → PyResult ProcOutcome × DB × List Effect :=
  fun rc db => process_document maxSize db (envs rc) documentId format checksum

/-- The inbound event fields the worker reads (src/app/kafka/schemas.py). -/
structure UploadedEvent where
  document_id : String
  original_name : String
  mime_type : String
  md5_checksum : String
  deriving Repr, DecidableEq

/-- The possible shapes of one consumer.poll round as seen by
WorkerPool._process_messages: no message; a dict payload that fails pydantic
validation (validate_event returns None); a non-dict payload (validate_event
raises, landing in the catch-all that logs and commits); a valid event. -/
inductive Poll where
  | empty
  | invalid (documentIdField : Option String)
  | malformed
  | valid (ev : UploadedEvent)
  deriving Repr, DecidableEq

/-- WorkerPool._process_messages for one poll round: invalid events publish
invalid_schema then commit; a malformed (non-mapping) payload hits the
catch-all which logs the skip decision and commits; a valid event is
registered in-flight and run through the retry driver (the loop then waits
on the future, so the trace is the full job trace). -/
def _process_messages (poll : Poll) (maxRetries : Nat) (backoff : List Nat)
    (maxSize : Nat) (envs : Nat → DocEnv) (db : DB) : DB × List Effect :=
  match poll with
  | .empty => (db, [])
  | .invalid f =>
    (db, [.publishError (f.getD "unknown") "invalid_schema" "Event failed schema validation",
          .commit])
  | .malformed => (db, [.skipDecided, .commit])
  | .valid ev =>
    let format := get_format ev.mime_type ev.original_name
    let r := _process_document_with_retry maxRetries backoff ev.document_id
      (pdAttempt maxSize envs ev.document_id format (some ev.md5_checksum)) db
    (r.1, Effect.inFlightInsert ev.document_id :: r.2)

/-- Effect classification: is this effect an offset commit. -/
def isCommit : Effect → Bool
  | .commit => true
  | _ => false

/-- Effect classification: is this effect a retry backoff sleep. -/
def isSleep : Effect → Bool
  | .sleep _ => true
  | _ => false

/-- Effect classification: is this effect a Document status write. -/
def isSetStatus : Effect → Bool
  | .setStatus _ _ _ => true
  | _ => false

/-- Effect classification: an error-topic publish with the given error_type. -/
def isErrType (t : String) : Effect → Bool
  | .publishError _ et _ => et == t
  | _ => false

/-- Number of offset commits in a trace. -/
def countCommit (l : List Effect) : Nat := l.countP isCommit

/-- Number of backoff sleeps in a trace. -/
def countSleep (l : List Effect) : Nat := l.countP isSleep

/-- Number of error publishes of a given error_type in a trace. -/
def countErrType (t : String) (l : List Effect) : Nat := l.countP (isErrType t)

/-- Terminal outcomes in the sense of the commit invariant: a result row was
written, an error event was published, or a skip was decided (either the
idempotency hit or the logged poison-message skip). -/
def isTerminalOutcome : Effect → Bool
  | .saveStructure _ => true
  | .publishError _ _ _ => true
  | .skipHit _ => true
  | .skipDecided => true
  | _ => false

/-- Walk a trace checking that every commit is preceded by some terminal
outcome; seen records whether a terminal outcome has already occurred. -/
def commitOk (seen : Bool) : List Effect → Bool
  | [] => true
  | e :: rest =>
    if isCommit e then seen && commitOk seen rest
    else commitOk (seen || isTerminalOutcome e) rest

/-- Total seconds of backoff sleeping in a trace. -/
def totalSleepSeconds : List Effect → Nat
  | [] => 0
  | .sleep n :: rest => n + totalSleepSeconds rest
  | _ :: rest => totalSleepSeconds rest

/-- Effects process_document itself can emit are none of the worker-level
effects: no commit, no sleep, no publish, no in-flight table update. -/
def effClean : Effect → Bool
  | .commit => false
  | .sleep _ => false
  | .publishParsed _ _ _ => false
  | .publishError _ _ _ => false
  | .inFlightInsert _ => false
  | .inFlightRemove _ => false
  | _ => true

/-- Settings.graceful_shutdown_timeout default (config.py line 38).  This
setting is read nowhere in worker_pool.py. -/
def graceful_shutdown_timeout : Nat := 30

/-- Settings.max_retries default (config.py line 41). -/
def max_retries_default : Nat := 3

/-- Settings.retry_backoff_list for the default "5,15,45" (config.py 42/52-55). -/
def retry_backoff_default : List Nat := [5, 15, 45]

/-- WorkerPool._shutdown runs executor.shutdown(wait=True) with no timeout:
the in-flight job runs to completion, so the wall-clock wait is at least the
job's remaining backoff sleeps. -/
def shutdownDrainSleep (jobTrace : List Effect) : Nat := totalSleepSeconds jobTrace

/-- One in-flight table operation (worker_pool.py lines 108-110 and 216-220). -/
inductive TableOp where
  | ins (documentId : String)
  | rem (documentId : String)
  deriving Repr, DecidableEq

/-- Dict update on the in-flight table: `self.in_flight_jobs[d] = future`
(insert, key kept unique) and `self.in_flight_jobs.pop(d, None)`. -/
def applyOp : List String → TableOp → List String
  | t, .ins d => if t.contains d then t else t ++ [d]
  | t, .rem d => t.filter fun x => !(x == d)

/-- The two table operations one processed message performs: the main
thread's registration (line 109) and the job's finally-block removal
(line 219).  The future is submitted (line 102) before the registration
executes, so the thread scheduler decides the order; registeredFirst records
which order happened for this message. -/
def msgOps (registeredFirst : Bool) (documentId : String) : List TableOp :=
  if registeredFirst then [.ins documentId, .rem documentId]
  else [.rem documentId, .ins documentId]

/-- Run a sequence of table operations. -/
def runOps : List String → List TableOp → List String
  | t, [] => t
  | t, op :: rest => runOps (applyOp t op) rest

/-- All intermediate table states along a sequence of operations. -/
def opStates : List String → List TableOp → List (List String)
  | t, [] => [t]
  | t, op :: rest => t :: opStates (applyOp t op) rest

/-- Final table after a schedule of messages, each contributing its two
operations in the recorded order.  Messages themselves are serialized: the
consume loop waits on each future before polling again. -/
def runSched : List String → List (Bool × String) → List String
  | t, [] => t
  | t, (b, d) :: rest => runSched (runOps t (msgOps b d)) rest

/-- All intermediate table states along a schedule of messages. -/
def schedStates : List String → List (Bool × String) → List (List String)
  | t, [] => [t]
  | t, (b, d) :: rest => opStates t (msgOps b d) ++ schedStates (runOps t (msgOps b d)) rest

/-- The empty store. -/
def dbEmpty : DB := ⟨[], []⟩

/-- Environment of a fully successful attempt writing structure id 1. -/
def envOk1 : DocEnv :=
  { statSize := .ok 10, tempPath := "/tmp/t1", fgetErr := none,
    parseResult := .ok (), saveErr := none, freshStructureId := 1, freshDurationMs := 10 }

/-- Environment of a fully successful attempt writing structure id 2. -/
def envOk2 : DocEnv :=
  { statSize := .ok 10, tempPath := "/tmp/t2", fgetErr := none,
    parseResult := .ok (), saveErr := none, freshStructureId := 2, freshDurationMs := 20 }

/-- Environment where stat_object reports 101 bytes (oversized for a 100-byte
limit): download_file raises ValueError before creating any temp file. -/
def envOversized : DocEnv :=
  { statSize := .ok 101, tempPath := "/tmp/t0", fgetErr := none,
    parseResult := .ok (), saveErr := none, freshStructureId := 1, freshDurationMs := 7 }

/-- Environment where the object fits but fget_object fails after mkstemp
already created the temp file. -/
def envFgetFail : DocEnv :=
  { statSize := .ok 10, tempPath := "/tmp/leak", fgetErr := some "connection reset",
    parseResult := .ok (), saveErr := none, freshStructureId := 1, freshDurationMs := 7 }

/-- Environment where the parser raises a ValueError. -/
def envParseFail : DocEnv :=
  { statSize := .ok 10, tempPath := "/tmp/t3", fgetErr := none,
    parseResult := .valueError "Failed to parse document", saveErr := none,
    freshStructureId := 3, freshDurationMs := 9 }

/-- Store after one successful run for document d with checksum c1. -/
def dbAfterFirst : DB := (process_document 100 dbEmpty envOk1 "d" "pdf" (some "c1")).2.1

/-- Store after a further successful run for the same document d with a
second checksum c2. -/
def dbAfterSecond : DB := (process_document 100 dbAfterFirst envOk2 "d" "pdf" (some "c2")).2.1

/-- Loop iteration taken when the attempt succeeds. -/
theorem retryFrom_ok (maxRetries : Nat) (backoff : List Nat) (documentId : String)
    (attempt : Nat → DB → PyResult ProcOutcome × DB × List Effect) (rc : Nat) (db db1 : DB)
    (o : ProcOutcome) (effs : List Effect)
    (hrc : rc ≤ maxRetries) (ha : attempt rc db = (.ok o, db1, effs)) :
    retryFrom maxRetries backoff documentId attempt rc db =
      (db1, effs ++ [.publishParsed documentId o.structureId o.parseDurationMs, .commit]) := by
  unfold retryFrom
  rw [if_pos hrc, ha]

/-- Loop iteration taken when the attempt raises ValueError. -/
theorem retryFrom_valueError (maxRetries : Nat) (backoff : List Nat) (documentId : String)
    (attempt : Nat → DB → PyResult ProcOutcome × DB × List Effect) (rc : Nat) (db db1 : DB)
    (m : String) (effs : List Effect)
    (hrc : rc ≤ maxRetries) (ha : attempt rc db = (.valueError m, db1, effs)) :
    retryFrom maxRetries backoff documentId attempt rc db =
      (db1, effs ++ [.publishError documentId "parsing_error" m, .commit]) := by
  unfold retryFrom
  rw [if_pos hrc, ha]

/-- Loop iteration taken when the attempt fails transiently with more
retries available: sleep the scheduled backoff and loop. -/
theorem retryFrom_retry (maxRetries : Nat) (backoff : List Nat) (documentId : String)
    (attempt : Nat → DB → PyResult ProcOutcome × DB × List Effect) (rc : Nat) (db db1 : DB)
    (m : String) (effs : List Effect)
    (hrc : rc ≤ maxRetries) (hrc2 : rc + 1 ≤ maxRetries)
    (ha : attempt rc db = (.otherError m, db1, effs)) :
    retryFrom maxRetries backoff documentId attempt rc db =
      ((retryFrom maxRetries backoff documentId attempt (rc + 1) db1).1,
       effs ++ Effect.sleep (backoffAt backoff rc) ::
         (retryFrom maxRetries backoff documentId attempt (rc + 1) db1).2) := by
  conv_lhs => unfold retryFrom
  rw [if_pos hrc, ha]
  simp [hrc2]

/-- Loop iteration taken when the attempt fails transiently with retries
exhausted: publish max_retries_exceeded and commit. -/
theorem retryFrom_exhaust (maxRetries : Nat) (backoff : List Nat) (documentId : String)
    (attempt : Nat → DB → PyResult ProcOutcome × DB × List Effect) (rc : Nat) (db db1 : DB)
    (m : String) (effs : List Effect)
    (hrc : rc ≤ maxRetries) (hrc2 : maxRetries < rc + 1)
    (ha : attempt rc db = (.otherError m, db1, effs)) :
    retryFrom maxRetries backoff documentId attempt rc db =
      (db1, effs ++ [.publishError documentId "max_retries_exceeded" m, .commit]) := by
  unfold retryFrom
  rw [if_pos hrc, ha]
  simp [Nat.not_le.mpr hrc2]

/-- The loop body is skipped entirely once retry_count exceeds max_retries. -/
theorem retryFrom_stop (maxRetries : Nat) (backoff : List Nat) (documentId : String)
    (attempt : Nat → DB → PyResult ProcOutcome × DB × List Effect) (rc : Nat) (db : DB)
    (hrc : maxRetries < rc) :
    retryFrom maxRetries backoff documentId attempt rc db = (db, []) := by
  unfold retryFrom
  rw [if_neg (by omega)]

/-- commitOk across a commit-free prefix: the seen flag absorbs the prefix's
terminal outcomes. -/
theorem commitOk_append_nc (xs ys : List Effect) (s : Bool)
    (h : ∀ e ∈ xs, isCommit e = false) :
    commitOk s (xs ++ ys) = commitOk (s || xs.any isTerminalOutcome) ys := by
  induction xs generalizing s with
  | nil => simp
  | cons e xs ih =>
    have he : isCommit e = false := h e (List.mem_cons_self e xs)
    simp only [List.cons_append, commitOk, he, Bool.false_eq_true, if_false, List.any_cons,
      List.append_eq]
    rw [ih _ fun e2 he2 => h e2 (List.mem_cons_of_mem _ he2), Bool.or_assoc]

/-- commitOk across an append when the suffix is commit-safe from any seen
state. -/
theorem commitOk_append_of (xs ys : List Effect) (s : Bool)
    (hx : commitOk s xs = true) (hy : ∀ s2, commitOk s2 ys = true) :
    commitOk s (xs ++ ys) = true := by
  induction xs generalizing s with
  | nil => simpa using hy s
  | cons e xs ih =>
    cases he : isCommit e with
    | true =>
      simp only [commitOk, he, if_true, Bool.and_eq_true] at hx
      simp only [List.cons_append, commitOk, he, if_true, Bool.and_eq_true]
      exact ⟨hx.1, ih _ hx.2⟩
    | false =>
      simp only [commitOk, he, Bool.false_eq_true, if_false] at hx
      simp only [List.cons_append, commitOk, he, Bool.false_eq_true, if_false]
      exact ih _ hx

/-- A predicate false on all clean effects counts zero in a clean trace. -/
theorem countP_zero_of_clean (l : List Effect) (p : Effect → Bool)
    (hcl : l.all effClean = true) (hp : ∀ e, effClean e = true → p e = false) :
    l.countP p = 0 := by
  rw [List.countP_eq_zero]
  intro e he
  rw [List.all_eq_true] at hcl
  simp [hp e (hcl e he)]

/-- Clean effects are never commits. -/
theorem effClean_not_commit (e : Effect) (h : effClean e = true) : isCommit e = false := by
  cases e <;> simp_all [effClean, isCommit]

/-- Clean effects are never sleeps. -/
theorem effClean_not_sleep (e : Effect) (h : effClean e = true) : isSleep e = false := by
  cases e <;> simp_all [effClean, isSleep]

/-- Clean effects are never error publishes. -/
theorem effClean_not_errType (t : String) (e : Effect) (h : effClean e = true) :
    isErrType t e = false := by
  cases e <;> simp_all [effClean, isErrType]

/-- process_document only emits orchestrator-level effects: no commit, no
sleep, no publishes, no in-flight table updates. -/
theorem pd_clean (maxSize : Nat) (db : DB) (env : DocEnv) (documentId format : String)
    (checksum : Option String) :
    ((process_document maxSize db env documentId format checksum).2.2).all effClean = true := by
  obtain ⟨stat, tmp, fget, pr, sv, fid, fdur⟩ := env
  rcases hh : (db.structures.filter fun r => r.documentId == documentId).head? with _ | s <;>
    cases stat <;> rcases fget with _ | fm <;> cases pr <;> rcases sv with _ | sm <;>
      simp [process_document, download_file, effClean, hh] <;>
      split_ifs <;> simp [effClean]

/-- A successful process_document run records a terminal outcome in its own
trace: the idempotency skip decision, or the structure row write. -/
theorem pd_ok_terminal (maxSize : Nat) (db : DB) (env : DocEnv) (documentId format : String)
    (checksum : Option String) (o : ProcOutcome)
    (h : (process_document maxSize db env documentId format checksum).1 = .ok o) :
    ((process_document maxSize db env documentId format checksum).2.2).any
      isTerminalOutcome = true := by
  obtain ⟨stat, tmp, fget, pr, sv, fid, fdur⟩ := env
  rcases hh : (db.structures.filter fun r => r.documentId == documentId).head? with _ | s <;>
    cases stat <;> rcases fget with _ | fm <;> cases pr <;> rcases sv with _ | sm <;>
      simp [process_document, download_file, hh] at h ⊢ <;>
      split_ifs at h ⊢ <;> simp_all [isTerminalOutcome]

/-- A process_document run that raises ValueError leaves the documents table
updated to parse_failed with that message. -/
theorem pd_valueError_db (maxSize : Nat) (db : DB) (env : DocEnv) (documentId format : String)
    (checksum : Option String) (m : String)
    (h : (process_document maxSize db env documentId format checksum).1 = .valueError m) :
    ((process_document maxSize db env documentId format checksum).2.1).documents =
      _update_document_status db.documents documentId "parse_failed" (some m) := by
  obtain ⟨stat, tmp, fget, pr, sv, fid, fdur⟩ := env
  rcases hh : (db.structures.filter fun r => r.documentId == documentId).head? with _ | s <;>
    cases stat <;> rcases fget with _ | fm <;> cases pr <;> rcases sv with _ | sm <;>
      simp [process_document, download_file, hh] at h ⊢ <;>
      split_ifs at h ⊢ <;> simp_all

/-- A process_document run that raises a non-ValueError exception leaves the
store untouched and performs no status write. -/
theorem pd_otherError_nostatus (maxSize : Nat) (db : DB) (env : DocEnv)
    (documentId format : String) (checksum : Option String) (m : String)
    (h : (process_document maxSize db env documentId format checksum).1 = .otherError m) :
    (process_document maxSize db env documentId format checksum).2.1 = db ∧
    ((process_document maxSize db env documentId format checksum).2.2).all
      (fun e => !(isSetStatus e)) = true := by
  obtain ⟨stat, tmp, fget, pr, sv, fid, fdur⟩ := env
  rcases hh : (db.structures.filter fun r => r.documentId == documentId).head? with _ | s <;>
    cases stat <;> rcases fget with _ | fm <;> cases pr <;> rcases sv with _ | sm <;>
      simp [process_document, download_file, hh] at h ⊢ <;>
      split_ifs at h ⊢ <;> simp_all [isSetStatus]

/-- Whenever download_file returned a path in a non-skipped run, the finally
block cleans that path on every exit branch. -/
theorem pd_cleanup (maxSize : Nat) (db : DB) (env : DocEnv) (documentId format : String)
    (checksum : Option String) (p : String)
    (hnd : _check_existing_structure db documentId checksum = false)
    (hdl : (download_file maxSize env).1 = .ok p) :
    Effect.cleanup p ∈ (process_document maxSize db env documentId format checksum).2.2 := by
  obtain ⟨stat, tmp, fget, pr, sv, fid, fdur⟩ := env
  cases stat <;> rcases fget with _ | fm <;> cases pr <;> rcases sv with _ | sm <;>
    simp [download_file] at hdl <;>
    simp [process_document, download_file, hnd] <;>
    split_ifs at hdl ⊢ <;> simp_all

/-- On an idempotency hit, process_document returns the first structure row
stored for the document (the re-fetch filters by document_id only), flags it
skipped, and touches nothing: no download, no parse, no write. -/
theorem pd_skip (maxSize : Nat) (db : DB) (env : DocEnv) (documentId format : String)
    (checksum : Option String) (s : SRow)
    (h1 : _check_existing_structure db documentId checksum = true)
    (h2 : (db.structures.filter fun r => r.documentId == documentId).head? = some s) :
    process_document maxSize db env documentId format checksum =
      (.ok ⟨s.id, s.parseDurationMs, true⟩, db, [.skipHit documentId]) := by
  unfold process_document
  rw [if_pos h1, h2]

/-- After _update_document_status, the first documents row with the given id
carries exactly the written status and message. -/
theorem find_update_status (docs : List DRow) (documentId status : String)
    (msg : Option String) :
    ((_update_document_status docs documentId status msg).find? fun r =>
      r.id == documentId) = some ⟨documentId, status, msg⟩ := by
  induction docs with
  | nil => simp [_update_document_status]
  | cons r rest ih =>
    cases hr : r.id == documentId with
    | true =>
      have : r.id = documentId := by simpa using hr
      simp [_update_document_status, hr, List.find?, this]
    | false =>
      simp [_update_document_status, hr, List.find?, ih]

/-- The retry driver, with every attempt an actual process_document call,
commits at most once and only after a terminal outcome, from any retry_count
onward. -/
theorem retry_commit_spec (maxRetries : Nat) (backoff : List Nat) (maxSize : Nat)
    (envs : Nat → DocEnv) (documentId format : String) (checksum : Option String) :
    ∀ n rc db, maxRetries + 1 - rc = n →
    countCommit (retryFrom maxRetries backoff documentId
        (pdAttempt maxSize envs documentId format checksum) rc db).2 ≤ 1 ∧
    ∀ s, commitOk s (retryFrom maxRetries backoff documentId
        (pdAttempt maxSize envs documentId format checksum) rc db).2 = true := by
  intro n
  induction n with
  | zero =>
    intro rc db hn
    rw [retryFrom_stop _ _ _ _ _ _ (by omega)]
    simp [countCommit, commitOk]
  | succ n ih =>
    intro rc db hn
    have hrc : rc ≤ maxRetries := by omega
    rcases ha : process_document maxSize db (envs rc) documentId format checksum
      with ⟨res, db1, effs⟩
    have ha2 : pdAttempt maxSize envs documentId format checksum rc db = (res, db1, effs) := ha
    have hclean : effs.all effClean = true := by
      have := pd_clean maxSize db (envs rc) documentId format checksum
      rw [ha] at this
      exact this
    have hnc : ∀ e ∈ effs, isCommit e = false := by
      rw [List.all_eq_true] at hclean
      exact fun e he => effClean_not_commit e (hclean e he)
    have hcc : effs.countP isCommit = 0 :=
      countP_zero_of_clean effs isCommit hclean effClean_not_commit
    cases res with
    | ok o =>
      rw [retryFrom_ok _ _ _ _ _ _ _ _ _ hrc ha2]
      have hterm : effs.any isTerminalOutcome = true := by
        have := pd_ok_terminal maxSize db (envs rc) documentId format checksum o
          (by rw [ha])
        rw [ha] at this
        exact this
      constructor
      · simp [countCommit, List.countP_append, hcc, List.countP_cons, isCommit]
      · intro s
        rw [commitOk_append_nc _ _ _ hnc, hterm]
        simp [commitOk, isCommit, isTerminalOutcome]
    | valueError m =>
      rw [retryFrom_valueError _ _ _ _ _ _ _ _ _ hrc ha2]
      constructor
      · simp [countCommit, List.countP_append, hcc, List.countP_cons, isCommit]
      · intro s
        rw [commitOk_append_nc _ _ _ hnc]
        simp [commitOk, isCommit, isTerminalOutcome]
    | otherError m =>
      by_cases h2 : rc + 1 ≤ maxRetries
      · rw [retryFrom_retry _ _ _ _ _ _ _ _ _ hrc h2 ha2]
        have hih := ih (rc + 1) db1 (by omega)
        constructor
        · simpa [countCommit, List.countP_append, hcc, List.countP_cons, isCommit]
            using hih.1
        · intro s
          rw [commitOk_append_nc _ _ _ hnc]
          simpa [commitOk, isCommit, isTerminalOutcome] using hih.2 _
      · rw [retryFrom_exhaust _ _ _ _ _ _ _ _ _ hrc (by omega) ha2]
        constructor
        · simp [countCommit, List.countP_append, hcc, List.countP_cons, isCommit]
        · intro s
          rw [commitOk_append_nc _ _ _ hnc]
          simp [commitOk, isCommit, isTerminalOutcome]

/-- The retry loop under a perpetually failing transient attempt: from
retry_count rc with n = maxRetries − rc iterations remaining, it emits the
scheduled backoff sleeps and closes with one max_retries_exceeded publish
and one commit. -/
theorem retryFrom_allFail (maxRetries : Nat) (backoff : List Nat) (documentId : String)
    (msgs : Nat → String) (db : DB) :
    ∀ n rc, maxRetries - rc = n → rc ≤ maxRetries →
    retryFrom maxRetries backoff documentId
        (fun i d => (.otherError (msgs i), d, [])) rc db =
      (db, ((List.range n).map fun j => Effect.sleep (backoffAt backoff (rc + j))) ++
        [.publishError documentId "max_retries_exceeded" (msgs maxRetries), .commit]) := by
  intro n
  induction n with
  | zero =>
    intro rc h0 hle
    have he : rc = maxRetries := by omega
    subst he
    rw [retryFrom_exhaust _ _ _ _ _ _ db _ _ hle (by omega) rfl]
    simp
  | succ n ih =>
    intro rc hn hle
    have h2 : rc + 1 ≤ maxRetries := by omega
    rw [retryFrom_retry _ _ _ _ _ _ db _ _ hle h2 rfl]
    rw [ih (rc + 1) (by omega) h2]
    have key : List.map (fun j => Effect.sleep (backoffAt backoff (rc + j))) (List.range (n + 1))
        = Effect.sleep (backoffAt backoff rc) ::
          List.map (fun j => Effect.sleep (backoffAt backoff (rc + 1 + j))) (List.range n) := by
      rw [List.range_succ_eq_map, List.map_cons, List.map_map]
      simp only [Nat.add_zero]
      congr 1
      apply List.map_congr_left
      intro j hj
      simp only [Function.comp_apply]
      congr 2
      omega
    rw [key]
    simp

/-- C1: for every poll round of the worker (empty poll, invalid schema,
malformed payload hitting the catch-all, or a valid event run through the
retry driver with arbitrary attempt environments), the offset commit happens
at most once, and every commit is preceded in the trace by a terminal
outcome for that message: a DocumentStructure row write, an error-event
publish, or the skip decision. -/
theorem C1_commit_at_most_once_after_terminal (poll : Poll) (maxRetries : Nat)
    (backoff : List Nat) (maxSize : Nat) (envs : Nat → DocEnv) (db : DB) :
    countCommit (_process_messages poll maxRetries backoff maxSize envs db).2 ≤ 1 ∧
    commitOk false (_process_messages poll maxRetries backoff maxSize envs db).2 = true := by
  cases poll with
  | empty => simp [_process_messages, countCommit, commitOk]
  | invalid f =>
    simp [_process_messages, countCommit, commitOk, isCommit, isTerminalOutcome,
      List.countP_cons]
  | malformed =>
    simp [_process_messages, countCommit, commitOk, isCommit, isTerminalOutcome,
      List.countP_cons]
  | valid ev =>
    have hspec := retry_commit_spec maxRetries backoff maxSize envs ev.document_id
      (get_format ev.mime_type ev.original_name) (some ev.md5_checksum)
      (maxRetries + 1 - 0) 0 db rfl
    simp only [_process_messages, _process_document_with_retry]
    constructor
    · simpa [countCommit, List.countP_cons, List.countP_append, isCommit]
        using hspec.1
    · simp only [commitOk, isCommit, isTerminalOutcome, Bool.false_eq_true, if_false,
        Bool.or_false]
      exact commitOk_append_of _ _ _ (hspec.2 _)
        (fun s2 => by simp [commitOk, isCommit])

/-- C2: when every attempt fails with a transient (non-ValueError) error, the
retry driver performs exactly max_retries retry attempts — retry attempt k
(1-indexed) sleeping retry_backoff_list[min (k−1) (length−1)] seconds — and
then publishes exactly one max_retries_exceeded error event and commits the
message exactly once. -/
theorem C2_retry_exhaustion (maxRetries : Nat) (backoff : List Nat) (documentId : String)
    (msgs : Nat → String) (db : DB) (hb : backoff ≠ []) :
    _process_document_with_retry maxRetries backoff documentId
        (fun i d => (.otherError (msgs i), d, [])) db =
      (db, ((List.range maxRetries).map fun k =>
          Effect.sleep (backoff.getD (min k (backoff.length - 1)) 0)) ++
        [.publishError documentId "max_retries_exceeded" (msgs maxRetries), .commit,
         .inFlightRemove documentId]) ∧
    countSleep (_process_document_with_retry maxRetries backoff documentId
        (fun i d => (.otherError (msgs i), d, [])) db).2 = maxRetries ∧
    countErrType "max_retries_exceeded" (_process_document_with_retry maxRetries backoff
        documentId (fun i d => (.otherError (msgs i), d, [])) db).2 = 1 ∧
    countCommit (_process_document_with_retry maxRetries backoff documentId
        (fun i d => (.otherError (msgs i), d, [])) db).2 = 1 := by
  have h := retryFrom_allFail maxRetries backoff documentId msgs db maxRetries 0 rfl
    (Nat.zero_le _)
  have htrace : _process_document_with_retry maxRetries backoff documentId
      (fun i d => (.otherError (msgs i), d, [])) db =
      (db, ((List.range maxRetries).map fun k =>
          Effect.sleep (backoff.getD (min k (backoff.length - 1)) 0)) ++
        [.publishError documentId "max_retries_exceeded" (msgs maxRetries), .commit,
         .inFlightRemove documentId]) := by
    unfold _process_document_with_retry
    rw [h]
    simp [backoffAt]
  refine ⟨htrace, ?_, ?_, ?_⟩ <;>
    rw [htrace] <;>
    simp [countSleep, countErrType, countCommit, List.countP_append, List.countP_map,
      List.countP_cons, isSleep, isErrType, isCommit, Function.comp_def,
      List.countP_true, List.length_range]

/-- C2 witness: the default configuration (max_retries = 3, backoff 5,15,45)
with a perpetually failing attempt sleeps 5, 15, 45 and then publishes
max_retries_exceeded and commits once. -/
theorem C2_retry_exhaustion_witness :
    retry_backoff_default ≠ [] ∧
    _process_document_with_retry max_retries_default retry_backoff_default "d"
        (fun _ d => (.otherError "boom", d, [])) dbEmpty =
      (dbEmpty, [Effect.sleep 5, .sleep 15, .sleep 45,
        .publishError "d" "max_retries_exceeded" "boom", .commit, .inFlightRemove "d"]) := by
  refine ⟨by decide, ?_⟩
  have h := (C2_retry_exhaustion max_retries_default retry_backoff_default "d"
    (fun _ => "boom") dbEmpty (by decide)).1
  rw [h]
  simp +decide [max_retries_default, retry_backoff_default]

/-- C3 counterexample: after (d, c1) and then (d, c2) both succeeded (writing
structure rows 1 and 2), redelivering (d, c2) is skipped but returns
structure_id 1 — the first row stored for d, because the re-fetch drops the
checksum filter — not the structure_id 2 that the successful (d, c2) call
returned. -/
theorem C3_counterexample :
    (process_document 100 dbAfterFirst envOk2 "d" "pdf" (some "c2")).1
        = .ok ⟨2, 20, false⟩ ∧
    (process_document 100 dbAfterSecond envOk1 "d" "pdf" (some "c2")).1
        = .ok ⟨1, 10, true⟩ ∧
    (1 : Nat) ≠ 2 := by decide

/-- C3 (amended): a second call for an already-successful (document_id,
checksum) pair performs no download, no parse and no database write, and
returns skipped = true with the structure_id of the first structure row
stored for that document_id (the re-fetch filters by document_id only) —
which is the first call's structure_id whenever that row is the document's
first structure row. -/
theorem C3_idempotent_skip (maxSize : Nat) (db : DB) (env : DocEnv)
    (documentId format : String) (checksum : Option String) (s : SRow)
    (h1 : _check_existing_structure db documentId checksum = true)
    (h2 : (db.structures.filter fun r => r.documentId == documentId).head? = some s) :
    process_document maxSize db env documentId format checksum =
      (.ok ⟨s.id, s.parseDurationMs, true⟩, db, [.skipHit documentId]) :=
  pd_skip maxSize db env documentId format checksum s h1 h2

/-- C3 witness: after a single successful run for (d, c1), the redelivery of
(d, c1) is skipped and returns the same structure_id 1. -/
theorem C3_idempotent_skip_witness :
    _check_existing_structure dbAfterFirst "d" (some "c1") = true ∧
    (dbAfterFirst.structures.filter fun r => r.documentId == "d").head?
      = some ⟨1, "d", some "c1", 10⟩ ∧
    process_document 100 dbAfterFirst envOk2 "d" "pdf" (some "c1") =
      (.ok ⟨1, 10, true⟩, dbAfterFirst, [.skipHit "d"]) :=
  ⟨by decide, by decide,
    C3_idempotent_skip 100 dbAfterFirst envOk2 "d" "pdf" (some "c1")
      ⟨1, "d", some "c1", 10⟩ (by decide) (by decide)⟩

/-- C4: a process_document call that raises a classified parse error
(ValueError) makes the retry driver sleep zero times, publish exactly one
parsing_error event and commit exactly once, while the document's persisted
status is parse_failed with the error message recorded. -/
theorem C4_parse_error_non_retryable (maxRetries maxSize : Nat) (backoff : List Nat)
    (db : DB) (env : DocEnv) (documentId format : String) (checksum : Option String)
    (m : String) (db1 : DB) (effs : List Effect)
    (h : process_document maxSize db env documentId format checksum
      = (.valueError m, db1, effs)) :
    _process_document_with_retry maxRetries backoff documentId
        (pdAttempt maxSize (fun _ => env) documentId format checksum) db =
      (db1, effs ++ [.publishError documentId "parsing_error" m, .commit,
        .inFlightRemove documentId]) ∧
    countSleep (_process_document_with_retry maxRetries backoff documentId
        (pdAttempt maxSize (fun _ => env) documentId format checksum) db).2 = 0 ∧
    countErrType "parsing_error" (_process_document_with_retry maxRetries backoff documentId
        (pdAttempt maxSize (fun _ => env) documentId format checksum) db).2 = 1 ∧
    countCommit (_process_document_with_retry maxRetries backoff documentId
        (pdAttempt maxSize (fun _ => env) documentId format checksum) db).2 = 1 ∧
    statusOf db1 documentId = some ("parse_failed", some m) := by
  have ha : pdAttempt maxSize (fun _ => env) documentId format checksum 0 db
      = (.valueError m, db1, effs) := h
  have htrace : _process_document_with_retry maxRetries backoff documentId
      (pdAttempt maxSize (fun _ => env) documentId format checksum) db =
      (db1, effs ++ [.publishError documentId "parsing_error" m, .commit,
        .inFlightRemove documentId]) := by
    unfold _process_document_with_retry
    rw [retryFrom_valueError maxRetries backoff documentId _ 0 db db1 m effs
      (Nat.zero_le _) ha]
    simp
  have hclean : effs.all effClean = true := by
    have := pd_clean maxSize db env documentId format checksum
    rw [h] at this
    exact this
  have hdocs : db1.documents
      = _update_document_status db.documents documentId "parse_failed" (some m) := by
    have := pd_valueError_db maxSize db env documentId format checksum m (by rw [h])
    rw [h] at this
    exact this
  refine ⟨htrace, ?_, ?_, ?_, ?_⟩
  · rw [htrace]
    simp [countSleep, List.countP_append, List.countP_cons, isSleep,
      countP_zero_of_clean effs isSleep hclean effClean_not_sleep]
  · rw [htrace]
    simp [countErrType, List.countP_append, List.countP_cons, isErrType,
      countP_zero_of_clean effs (isErrType "parsing_error") hclean
        (effClean_not_errType "parsing_error")]
  · rw [htrace]
    simp [countCommit, List.countP_append, List.countP_cons, isCommit,
      countP_zero_of_clean effs isCommit hclean effClean_not_commit]
  · rw [statusOf, hdocs, find_update_status]
    rfl

/-- C4 witness: a ValueError from the parser at the empty store yields the
parsing_error publish, one commit, no sleeps, and a parse_failed status. -/
theorem C4_parse_error_non_retryable_witness :
    process_document 100 dbEmpty envParseFail "d" "pdf" (some "c")
      = (.valueError "Failed to parse document",
         ⟨[], [⟨"d", "parse_failed", some "Failed to parse document"⟩]⟩,
         [.tempCreated "/tmp/t3",
          .setStatus "d" "parse_failed" (some "Failed to parse document"),
          .cleanup "/tmp/t3"]) ∧
    statusOf (⟨[], [⟨"d", "parse_failed", some "Failed to parse document"⟩]⟩ : DB) "d"
      = some ("parse_failed", some "Failed to parse document") := by
  refine ⟨by decide, ?_⟩
  exact (C4_parse_error_non_retryable 3 100 [5] dbEmpty envParseFail "d" "pdf" (some "c")
    "Failed to parse document"
    ⟨[], [⟨"d", "parse_failed", some "Failed to parse document"⟩]⟩
    [.tempCreated "/tmp/t3",
     .setStatus "d" "parse_failed" (some "Failed to parse document"),
     .cleanup "/tmp/t3"] (by decide)).2.2.2.2

/-- C5 counterexample: an oversized object — an acquire/infrastructure
failure that never reaches the parser — raises ValueError inside
download_file and so sets the document status to parse_failed, which the
claim says can never happen. -/
theorem C5_counterexample :
    (download_file 100 envOversized).1 = .valueError (oversizedMsg 101 100) ∧
    statusOf (process_document 100 dbEmpty envOversized "d" "pdf" (some "c")).2.1 "d"
      = some ("parse_failed", some (oversizedMsg 101 100)) := by decide

/-- C5 (amended): any failure during acquire or persist that surfaces as a
non-ValueError exception propagates to the caller with no status mutation;
however an oversized object raises ValueError from the download step and is
then classified as a parse failure, setting status parse_failed. -/
theorem C5_system_error_no_status_change (maxSize : Nat) (db : DB) (env : DocEnv)
    (documentId format : String) (checksum : Option String) (m : String)
    (h : (process_document maxSize db env documentId format checksum).1 = .otherError m) :
    (process_document maxSize db env documentId format checksum).2.1 = db ∧
    ((process_document maxSize db env documentId format checksum).2.2).all
      (fun e => !(isSetStatus e)) = true :=
  pd_otherError_nostatus maxSize db env documentId format checksum m h

/-- C5 witness: a failing fget_object (transient transport error) leaves the
store exactly as it was and writes no status. -/
theorem C5_system_error_no_status_change_witness :
    (process_document 100 dbEmpty envFgetFail "d" "pdf" (some "c")).1
      = .otherError "connection reset" ∧
    (process_document 100 dbEmpty envFgetFail "d" "pdf" (some "c")).2.1 = dbEmpty :=
  ⟨by decide,
    (C5_system_error_no_status_change 100 dbEmpty envFgetFail "d" "pdf" (some "c")
      "connection reset" (by decide)).1⟩

/-- C6: format resolution consults the MIME table first (application/pdf
gives pdf for every filename), falls back to the lowercased filename
extension (unrecognized MIME with report.xlsx gives xlsx), and defaults to
the fixed format pdf when both fail. -/
theorem C6_format_resolution :
    (∀ name, get_format "application/pdf" name = "pdf") ∧
    get_format "application/x-unknown" "report.xlsx" = "xlsx" ∧
    get_format "application/x-unknown" "report.bin" = "pdf" ∧
    get_format "application/x-unknown" "README" = "pdf" :=
  ⟨fun _ => rfl, by decide, by decide, by decide⟩

/-- C7: at the default configuration, a shutdown signal with one in-flight
perpetually failing job makes the drain wait through 65 seconds of backoff
sleeps — more than the configured graceful_shutdown_timeout of 30 — because
executor.shutdown(wait=True) carries no timeout and the setting is read
nowhere; the job still completes with its commit before the process exits. -/
theorem C7_shutdown_wait_exceeds_grace :
    shutdownDrainSleep (_process_document_with_retry max_retries_default
        retry_backoff_default "d"
        (fun _ d => (.otherError "connection refused", d, [])) dbEmpty).2 = 65 ∧
    graceful_shutdown_timeout < 65 ∧
    countCommit (_process_document_with_retry max_retries_default retry_backoff_default "d"
        (fun _ d => (.otherError "connection refused", d, [])) dbEmpty).2 = 1 := by
  refine ⟨?_, by decide, ?_⟩ <;>
    simp +decide [_process_document_with_retry, retryFrom, shutdownDrainSleep,
      totalSleepSeconds, countCommit, max_retries_default, retry_backoff_default,
      backoffAt, List.countP, List.countP.go, isCommit]

/-- C8 counterexample: when fget_object fails after mkstemp already created
the scratch file, download_file raises before assigning temp_file, so the
finally block cleans nothing: the created temp path is never removed. -/
theorem C8_counterexample :
    Effect.tempCreated "/tmp/leak"
        ∈ (process_document 100 dbEmpty envFgetFail "d" "pdf" (some "c")).2.2 ∧
    Effect.cleanup "/tmp/leak"
        ∉ (process_document 100 dbEmpty envFgetFail "d" "pdf" (some "c")).2.2 := by decide

/-- C8 (amended): on every non-skipped run in which download_file returns a
temp path, that path is cleaned on every exit path (success, parse error,
unsupported format, system error during parse or persist); but when the
download step itself fails partway — after creating the temp file — the file
is not removed. -/
theorem C8_cleanup_after_download (maxSize : Nat) (db : DB) (env : DocEnv)
    (documentId format : String) (checksum : Option String) (p : String)
    (hnd : _check_existing_structure db documentId checksum = false)
    (hdl : (download_file maxSize env).1 = .ok p) :
    Effect.cleanup p ∈ (process_document maxSize db env documentId format checksum).2.2 :=
  pd_cleanup maxSize db env documentId format checksum p hnd hdl

/-- C8 witness: a successful download of /tmp/t1 is cleaned up. -/
theorem C8_cleanup_after_download_witness :
    _check_existing_structure dbEmpty "d" (some "c1") = false ∧
    (download_file 100 envOk1).1 = .ok "/tmp/t1" ∧
    Effect.cleanup "/tmp/t1"
      ∈ (process_document 100 dbEmpty envOk1 "d" "pdf" (some "c1")).2.2 :=
  ⟨by decide, by decide,
    C8_cleanup_after_download 100 dbEmpty envOk1 "d" "pdf" (some "c1") "/tmp/t1"
      (by decide) (by decide)⟩

/-- C9 counterexample: the future is submitted before the in-flight
registration, so a job finishing first performs its pop before the insert:
the dispatched job reaches its terminal outcome yet its entry is never
removed, and two such leaked entries exceed a pool of one worker. -/
theorem C9_counterexample :
    ("d" ∈ runSched [] [(false, "d")]) ∧
    1 < (runSched [] [(false, "a"), (false, "b")]).length := by decide

/-- C9 (amended): under the intended order — each job's registration happens
before the job's terminal removal — the in-flight count never exceeds one
(hence never exceeds the pool size for any worker_count at least 1, since
the consume loop waits on each job) and the table is empty again after each
job, i.e. every dispatched job's entry is removed exactly once; a job that
completes before its registration instead leaves a never-removed entry. -/
theorem C9_inflight_bound (sched : List (Bool × String)) (workerCount : Nat)
    (hgood : ∀ p ∈ sched, p.1 = true) (hwc : 1 ≤ workerCount) :
    (∀ s ∈ schedStates [] sched, s.length ≤ workerCount) ∧
    runSched [] sched = [] := by
  induction sched with
  | nil =>
    constructor
    · intro s hs
      simp [schedStates] at hs
      simp [hs]
    · rfl
  | cons q rest ih =>
    obtain ⟨b, d⟩ := q
    have hb : b = true := hgood (b, d) (List.mem_cons_self _ _)
    subst hb
    have hstep : runOps [] (msgOps true d) = [] := by
      simp [msgOps, runOps, applyOp]
    have hih := ih fun q2 hq => hgood q2 (List.mem_cons_of_mem _ hq)
    constructor
    · intro s hs
      simp only [schedStates, hstep, List.mem_append] at hs
      rcases hs with hs | hs
      · simp [msgOps, opStates, applyOp] at hs
        rcases hs with hs | hs | hs <;> subst hs <;> simp <;> omega
      · exact hih.1 s hs
    · simp [runSched, hstep, hih.2]

/-- C9 witness: two well-ordered jobs on a four-worker pool keep the count
at most one and leave the table empty. -/
theorem C9_inflight_bound_witness :
    (∀ p ∈ [(true, "x"), (true, "y")], p.1 = true) ∧ 1 ≤ 4 ∧
    ((∀ s ∈ schedStates [] [(true, "x"), (true, "y")], s.length ≤ 4) ∧
      runSched [] [(true, "x"), (true, "y")] = []) :=
  ⟨by decide, by decide,
    C9_inflight_bound [(true, "x"), (true, "y")] 4 (by decide) (by decide)⟩

/-- C10: when process_document reports an idempotent skip (skipped = true),
the worker still publishes a ParsedEvent — whose event_id is the freshly
drawn uuid — and commits the offset: redelivery of an already-successful
message is not silent on the outbound topic. -/
theorem C10_skip_still_publishes (maxRetries maxSize : Nat) (backoff : List Nat)
    (db db1 : DB) (env : DocEnv) (documentId format : String) (checksum : Option String)
    (o : ProcOutcome) (effs : List Effect) (u sid fmt pa ver : String) (dur : Nat)
    (h : process_document maxSize db env documentId format checksum = (.ok o, db1, effs))
    (_hskip : o.skipped = true) :
    (_process_document_with_retry maxRetries backoff documentId
        (pdAttempt maxSize (fun _ => env) documentId format checksum) db).2 =
      effs ++ [.publishParsed documentId o.structureId o.parseDurationMs, .commit,
        .inFlightRemove documentId] ∧
    (publish_parsed_event u documentId sid fmt pa dur ver).event_id = u := by
  constructor
  · have ha : pdAttempt maxSize (fun _ => env) documentId format checksum 0 db
        = (.ok o, db1, effs) := h
    unfold _process_document_with_retry
    rw [retryFrom_ok maxRetries backoff documentId _ 0 db db1 o effs (Nat.zero_le _) ha]
    simp
  · rfl

/-- C10 witness: redelivery of (d, c1) after its success publishes the
parsed event for structure 1 and commits, and the built event carries the
fresh uuid. -/
theorem C10_skip_still_publishes_witness :
    process_document 100 dbAfterFirst envOk2 "d" "pdf" (some "c1")
      = (.ok ⟨1, 10, true⟩, dbAfterFirst, [.skipHit "d"]) ∧
    (⟨1, 10, true⟩ : ProcOutcome).skipped = true ∧
    (_process_document_with_retry 3 [5] "d"
        (pdAttempt 100 (fun _ => envOk2) "d" "pdf" (some "c1")) dbAfterFirst).2
      = [.skipHit "d", .publishParsed "d" 1 10, .commit, .inFlightRemove "d"] ∧
    (publish_parsed_event "uuid-1" "d" "1" "pdf" "2024-01-01T00:00:00" 10 "1.0.0").event_id
      = "uuid-1" := by
  have h := C10_skip_still_publishes 3 100 [5] dbAfterFirst dbAfterFirst envOk2 "d" "pdf"
    (some "c1") ⟨1, 10, true⟩ [.skipHit "d"] "uuid-1" "1" "pdf" "2024-01-01T00:00:00"
    "1.0.0" 10 (by decide) rfl
  exact ⟨by decide, rfl, by simpa using h.1, h.2⟩

end RagParser
